import Mathlib

/-!
Shallow embedding of `src/filterevents.py` (LLDB stop-event filtering).

The script has two functions:

* `AddStopHookFilter(source_file, module_file, function)` builds a string of
  command-line flags (`filterArgs`) and registers a stop hook running
  `FilterEventStopHook` with those flags.
* `FilterEventStopHook(debugger, command, result, dict)` shlex-splits and
  argparse-parses `command`, scans the process threads for the first one with a
  real stop reason, extracts {module path, function name, line, source path}
  from its frame 0, evaluates the three regular-expression criteria with
  `re.search`, and when no criterion matches forces async mode, continues the
  process, and restores the saved async mode.

Python's `re` engine is external to the repository, so it is abstracted by two
parameters: `valid : String → Bool` (does the pattern compile?) and
`search : String → String → Bool` (unanchored search of a compilable pattern
against a subject).  `re.search pat s` either raises `re.error` (iff `pat` does
not compile, independently of `s`) or returns whether the search succeeded;
`reSearch` below models exactly that.  Host effects (`SetAsync`,
`process.Continue`) are recorded as an explicit action list, and `print` output
as a string list.
-/

set_option maxRecDepth 8192

namespace FilterEvents

/-- Stop reasons of `lldb.SBThread.GetStopReason`; the script only
distinguishes `eStopReasonNone` and `eStopReasonInvalid` from the rest. -/
inductive StopReason where
  | eStopReasonInvalid
  | eStopReasonNone
  | eStopReasonTrace
  | eStopReasonBreakpoint
  | eStopReasonWatchpoint
  | eStopReasonSignal
  | eStopReasonException
  | eStopReasonExec
  | eStopReasonPlanComplete
  | eStopReasonThreadExiting
deriving DecidableEq, BEq

/-- An `lldb.SBModule`: only `GetFileSpec().__get_fullpath__()` is consulted;
`none` models a file spec that could not be produced. -/
structure SBModule where
  fileSpec : Option String
deriving DecidableEq

/-- An `lldb.SBFunction`: only `GetDisplayName()` is consulted (it may
return `None`, which the script leaves in `funcName`). -/
structure SBFunction where
  displayName : Option String
deriving DecidableEq

/-- An `lldb.SBLineEntry`: `GetLine()` and `GetFileSpec().__get_fullpath__()`. -/
structure SBLineEntry where
  line : Nat
  fileSpec : Option String
deriving DecidableEq

/-- An `lldb.SBFrame`: the three accessors the script reads, each possibly
unavailable (`None`). -/
structure SBFrame where
  module : Option SBModule
  func : Option SBFunction
  lineEntry : Option SBLineEntry
deriving DecidableEq

/-- An `lldb.SBThread`: its stop reason and its `GetFrameAtIndex(0)` frame. -/
structure SBThread where
  stopReason : StopReason
  frame0 : SBFrame
deriving DecidableEq

/-- The fields the handler extracts from the frame (the script's local
variables `lineNum`, `funcName`, `srcFileName`, `modFileName`). -/
structure StopObservation where
  lineNum : Option Nat
  funcName : Option String
  srcFileName : Option String
  modFileName : Option String
deriving DecidableEq

/-- The extraction block of `FilterEventStopHook` (lines 94-116): each field is
`None` unless every accessor on its path produced a value. -/
def extractObservation (frame : SBFrame) : StopObservation :=
  { lineNum := match frame.lineEntry with
      | some le => some le.line
      | none => none
    funcName := match frame.func with
      | some f => f.displayName
      | none => none
    srcFileName := match frame.lineEntry with
      | some le => le.fileSpec
      | none => none
    modFileName := match frame.module with
      | some mod =>
        match mod.fileSpec with
        | some p => some p
        | none => none
      | none => none }

/-- The parsed argparse namespace (`args`): destinations `srcFile`, `modFile`,
`function`, each defaulting to `None`. -/
structure Args where
  srcFile : Option String
  modFile : Option String
  function : Option String
deriving DecidableEq

/-- Ways `argparse.parse_args` can reject the token list (it raises
`SystemExit` in each case). -/
inductive ParseErr where
  | missingValue (flag : String)
  | unknownFlag (tok : String)
  | unrecognizedArgument (tok : String)
deriving DecidableEq

/-- Left-to-right scan of the token list: each known flag consumes the next
token as its value; an unknown `--` token is rejected; plain tokens are
collected as extras and rejected at the end (argparse's
"unrecognized arguments"). -/
def parseArgsLoop : List String → Args → List String → Except ParseErr Args
  | [], args, extras =>
    match extras with
    | [] => .ok args
    | tok :: _ => .error (.unrecognizedArgument tok)
  | tok :: rest, args, extras =>
    if tok = "--source-file" then
      match rest with
      | [] => .error (.missingValue tok)
      | v :: rest2 => parseArgsLoop rest2 { args with srcFile := some v } extras
    else if tok = "--module-file" then
      match rest with
      | [] => .error (.missingValue tok)
      | v :: rest2 => parseArgsLoop rest2 { args with modFile := some v } extras
    else if tok = "--function" then
      match rest with
      | [] => .error (.missingValue tok)
      | v :: rest2 => parseArgsLoop rest2 { args with function := some v } extras
    else if tok.startsWith "--" then .error (.unknownFlag tok)
    else parseArgsLoop rest args (extras ++ [tok])

/-- `parser.parse_args(argList)` for the parser built in `FilterEventStopHook`
(three optional string flags, no positionals). -/
def parse_args (argList : List String) : Except ParseErr Args :=
  parseArgsLoop argList ⟨none, none, none⟩ []

def spaceChar : Char := Char.ofNat 32
def tabChar : Char := Char.ofNat 9
def newlineChar : Char := Char.ofNat 10
def squoteChar : Char := Char.ofNat 39
def dquoteChar : Char := Char.ofNat 34
def escChar : Char := Char.ofNat 92

/-- Close the token in progress, if any. -/
def flushTok (cur : Option String) (acc : List String) : List String :=
  match cur with
  | some t => acc ++ [t]
  | none => acc

/-- Append a character to the token in progress (starting one if needed). -/
def appendTok (cur : Option String) (c : Char) : Option String :=
  some ((cur.getD "") ++ c.toString)

/-- POSIX lexer underlying `shlex.split` (whitespace-split mode): state is
(input, in-single-quote, in-double-quote, token in progress, emitted tokens).
Outside quotes, whitespace delimits tokens, quotes group, and a backslash
escapes the next character; inside double quotes a backslash escapes only a
double quote or a backslash, otherwise both characters are kept. -/
def shlexAux : List Char → Bool → Bool → Option String → List String → List String
  | [], _, _, cur, acc => flushTok cur acc
  | c :: cs, inS, inD, cur, acc =>
    if inS then
      if c = squoteChar then shlexAux cs false inD (some (cur.getD "")) acc
      else shlexAux cs true inD (appendTok cur c) acc
    else if inD then
      if c = dquoteChar then shlexAux cs false false (some (cur.getD "")) acc
      else if c = escChar then
        match cs with
        | d :: cs2 =>
          if d = dquoteChar ∨ d = escChar then shlexAux cs2 false true (appendTok cur d) acc
          else shlexAux cs2 false true (appendTok (appendTok cur c) d) acc
        | [] => flushTok (appendTok cur c) acc
      else shlexAux cs false true (appendTok cur c) acc
    else
      if c = spaceChar ∨ c = tabChar ∨ c = newlineChar then
        shlexAux cs false false none (flushTok cur acc)
      else if c = squoteChar then shlexAux cs true false (some (cur.getD "")) acc
      else if c = dquoteChar then shlexAux cs false true (some (cur.getD "")) acc
      else if c = escChar then
        match cs with
        | d :: cs2 => shlexAux cs2 false false (appendTok cur d) acc
        | [] => flushTok cur acc
      else shlexAux cs false false (appendTok cur c) acc

/-- `shlex.split(command)` as used on line 78. -/
def shlexSplit (s : String) : List String :=
  shlexAux s.toList false false none []

/-- The flag string `filterArgs` that `AddStopHookFilter` (lines 36-45) builds
from its three optional arguments: for each supplied pattern it appends
`--flag ` plus the pattern wrapped in double quotes, with no separator before
the next flag. -/
def AddStopHookFilterArgs (source_file module_file function : Option String) : String :=
  let filterArgs := ""
  let filterArgs := match source_file with
    | some s => filterArgs ++ "--source-file " ++ "\"" ++ s ++ "\""
    | none => filterArgs
  let filterArgs := match module_file with
    | some s => filterArgs ++ "--module-file " ++ "\"" ++ s ++ "\""
    | none => filterArgs
  let filterArgs := match function with
    | some s => filterArgs ++ "--function " ++ "\"" ++ s ++ "\""
    | none => filterArgs
  filterArgs

/-- `re.error`: raised by `re.search` when the pattern does not compile. -/
inductive RegexErr where
  | invalidPattern (pat : String)
deriving DecidableEq

/-- `re.search(pat, s)`, abstracting Python's engine: `valid` says whether the
pattern compiles (a property of the pattern alone) and `search` is the
unanchored search on compilable patterns. -/
def reSearch (valid : String → Bool) (search : String → String → Bool)
    (pat s : String) : Except RegexErr Bool :=
  if valid pat then .ok (search pat s) else .error (.invalidPattern pat)

def funcMatchMsg : String := "Stopping due to function name match"
def modMatchMsg : String := "Stopping due to module name match"
def srcMatchMsg : String := "Stopping due to source file name match"

/-- One of the three filter blocks (e.g. lines 120-124): when the pattern is
configured and the observed value present, run `re.search`; on a match print
the diagnostic and set `allowEvent`; otherwise leave the state unchanged.
The state is `(allowEvent, printed output so far)`. -/
def checkFilter (valid : String → Bool) (search : String → String → Bool)
    (pat obs : Option String) (msg : String)
    (st : Bool × List String) : Except RegexErr (Bool × List String) :=
  match pat, obs with
  | some p, some o =>
    match reSearch valid search p o with
    | .ok true => .ok (true, st.2 ++ [msg])
    | .ok false => .ok st
    | .error e => .error e
  | _, _ => .ok st

/-- The "Parse the filters" block (lines 119-136): the three checks run in
sequence — function, module, source — starting from `allowEvent = False`; an
`re.error` from any check propagates out (output already printed before the
exception is not modelled, as no claim concerns it). -/
def parseFilters (valid : String → Bool) (search : String → String → Bool)
    (args : Args) (funcName modFileName srcFileName : Option String) :
    Except RegexErr (Bool × List String) :=
  Except.bind (checkFilter valid search args.function funcName funcMatchMsg (false, []))
    (fun st1 =>
      Except.bind (checkFilter valid search args.modFile modFileName modMatchMsg st1)
        (fun st2 =>
          checkFilter valid search args.srcFile srcFileName srcMatchMsg st2))

/-- The decision alone: `some allowEvent` when evaluation completes, `none`
when `re.error` escapes. -/
def evalAllow (valid : String → Bool) (search : String → String → Bool)
    (args : Args) (funcName modFileName srcFileName : Option String) : Option Bool :=
  match parseFilters valid search args funcName modFileName srcFileName with
  | .ok (b, _) => some b
  | .error _ => none

/-- The loop condition on line 86: the thread's stop reason is neither
`eStopReasonNone` nor `eStopReasonInvalid`. -/
def realStopReason (t : SBThread) : Bool :=
  !(t.stopReason == StopReason.eStopReasonNone) &&
    !(t.stopReason == StopReason.eStopReasonInvalid)

/-- The thread loop of lines 84-88: `frame` is frame 0 of the first thread, in
process iteration order, with a real stop reason; `none` when no thread
qualifies. -/
def findStopFrame : List SBThread → Option SBFrame
  | [] => none
  | t :: rest => if realStopReason t then some t.frame0 else findStopFrame rest

/-- Calls the handler makes that mutate host state: `debugger.SetAsync(b)` and
`process.Continue()`. -/
inductive HostAction where
  | setAsync (b : Bool)
  | continueProcess
deriving DecidableEq

/-- Exceptions that can escape the handler: `SystemExit` from
`parse_args`, or `re.error` from an invalid pattern. -/
inductive HookError where
  | parseError (e : ParseErr)
  | regexError (e : RegexErr)
deriving DecidableEq

/-- Observable outcome of one handler invocation: printed lines, host actions
performed (in order), and the escaped exception if any.  Host actions are only
performed after the filter block, so on every error path `actions = []`. -/
structure HookResult where
  prints : List String
  actions : List HostAction
  err : Option HookError
deriving DecidableEq

/-- `FilterEventStopHook` (lines 52-145).  `command` is the flag string the
hook was registered with, `threads` the process's threads in iteration order,
and `async0` the value `lldb.debugger.GetAsync()` returns at this stop. -/
def FilterEventStopHook (valid : String → Bool) (search : String → String → Bool)
    (command : String) (threads : List SBThread) (async0 : Bool) : HookResult :=
  match parse_args (shlexSplit command) with
  | .error e => { prints := [], actions := [], err := some (.parseError e) }
  | .ok args =>
    match findStopFrame threads with
    | none => { prints := [], actions := [], err := none }
    | some frame =>
      match parseFilters valid search args (extractObservation frame).funcName
          (extractObservation frame).modFileName (extractObservation frame).srcFileName with
      | .error e => { prints := [], actions := [], err := some (.regexError e) }
      | .ok (allowEvent, output) =>
        if !allowEvent then
          { prints := output
            actions := [.setAsync true, .continueProcess, .setAsync async0]
            err := none }
        else
          { prints := output, actions := [], err := none }

/-- Final async mode after replaying the handler's actions from mode `a`. -/
def runActions (a : Bool) : List HostAction → Bool
  | [] => a
  | .setAsync b :: rest => runActions b rest
  | .continueProcess :: rest => runActions a rest

/-- Every `Continue` in the action list happens while async mode is `true`,
replaying from initial mode `a`. -/
def continuesUnderAsync (a : Bool) : List HostAction → Bool
  | [] => true
  | .setAsync b :: rest => continuesUnderAsync b rest
  | .continueProcess :: rest => a && continuesUnderAsync a rest

/-- Spec-side formula for one (pattern, observed value) pair: the pair matches
when the pattern is configured, the field present, and the search succeeds. -/
def pairMatches (search : String → String → Bool) (pat obs : Option String) : Bool :=
  match pat, obs with
  | some p, some o => search p o
  | _, _ => false

/-- All configured patterns compile. -/
def argsValid (valid : String → Bool) (args : Args) : Bool :=
  args.function.all valid && args.modFile.all valid && args.srcFile.all valid

/-- Criteria with every pattern whose observed field is absent removed. -/
def maskAbsent (args : Args) (funcName modFileName srcFileName : Option String) : Args :=
  { srcFile := if srcFileName.isSome then args.srcFile else none
    modFile := if modFileName.isSome then args.modFile else none
    function := if funcName.isSome then args.function else none }

/-- Sample regex engine for concrete witnesses: the only invalid pattern is the
unbalanced group `"("` (which Python's `re` rejects), and search is string
equality. -/
def sampleValid (pat : String) : Bool := pat != "("

/-- Sample search primitive for concrete witnesses. -/
def sampleSearch (pat s : String) : Bool := pat == s

/-- The frame with line number replaced by `n` (when a line entry exists). -/
def SBFrame.withLine (f : SBFrame) (n : Nat) : SBFrame :=
  { f with lineEntry := f.lineEntry.map (fun le => { le with line := n }) }

/-- The thread with its frame's line number replaced by `n`. -/
def SBThread.withLine (t : SBThread) (n : Nat) : SBThread :=
  { t with frame0 := t.frame0.withLine n }

theorem except_bind_ok {ε α β : Type} (a : α) (f : α → Except ε β) :
    Except.bind (Except.ok a) f = f a := rfl

theorem checkFilter_patNone (valid : String → Bool) (search : String → String → Bool)
    (obs : Option String) (msg : String) (st : Bool × List String) :
    checkFilter valid search none obs msg st = .ok st := rfl

theorem checkFilter_obsNone (valid : String → Bool) (search : String → String → Bool)
    (pat : Option String) (msg : String) (st : Bool × List String) :
    checkFilter valid search pat none msg st = .ok st := by
  cases pat <;> rfl

/-- A filter block with a compilable (or unconfigured) pattern never raises and
folds its match into the running state. -/
theorem checkFilter_ok (valid : String → Bool) (search : String → String → Bool)
    (pat obs : Option String) (msg : String) (h : pat.all valid = true)
    (st : Bool × List String) :
    checkFilter valid search pat obs msg st =
      .ok (st.1 || pairMatches search pat obs,
           st.2 ++ if pairMatches search pat obs then [msg] else []) := by
  obtain ⟨b, out⟩ := st
  cases pat with
  | none => cases obs <;> simp [checkFilter, pairMatches]
  | some p =>
    have hv : valid p = true := by simpa [Option.all] using h
    cases obs with
    | none => simp [checkFilter, pairMatches]
    | some o =>
      cases hs : search p o <;>
        simp [checkFilter, pairMatches, reSearch, hv, hs]

/-- Full characterization of the filter block when every configured pattern
compiles: the decision is the OR of the three pair matches and the printed
output lists the diagnostics of the matching pairs, in function, module,
source order. -/
theorem parseFilters_ok (valid : String → Bool) (search : String → String → Bool)
    (args : Args) (fn mf sf : Option String) (h : argsValid valid args = true) :
    parseFilters valid search args fn mf sf =
      .ok (pairMatches search args.function fn || pairMatches search args.modFile mf ||
             pairMatches search args.srcFile sf,
           ((if pairMatches search args.function fn then [funcMatchMsg] else []) ++
             (if pairMatches search args.modFile mf then [modMatchMsg] else [])) ++
           (if pairMatches search args.srcFile sf then [srcMatchMsg] else [])) := by
  have h' : args.function.all valid = true ∧ args.modFile.all valid = true ∧
      args.srcFile.all valid = true := by
    simpa [argsValid, Bool.and_eq_true, and_assoc] using h
  obtain ⟨h1, h2, h3⟩ := h'
  simp only [parseFilters, checkFilter_ok valid search args.function fn funcMatchMsg h1,
    except_bind_ok]
  simp only [checkFilter_ok valid search args.modFile mf modMatchMsg h2, except_bind_ok]
  simp only [checkFilter_ok valid search args.srcFile sf srcMatchMsg h3]
  simp

/-- With no pattern configured the filter block returns `False` and prints
nothing, whatever the observation. -/
theorem parseFilters_noneArgs (valid : String → Bool) (search : String → String → Bool)
    (fn mf sf : Option String) :
    parseFilters valid search ⟨none, none, none⟩ fn mf sf = .ok (false, []) := rfl

/-- The handler either performs no host action at all, or performs exactly the
suppress sequence: force async, continue, restore the saved mode. -/
theorem hookActions_cases (valid : String → Bool) (search : String → String → Bool)
    (command : String) (threads : List SBThread) (async0 : Bool) :
    (FilterEventStopHook valid search command threads async0).actions = [] ∨
    (FilterEventStopHook valid search command threads async0).actions =
      [.setAsync true, .continueProcess, .setAsync async0] := by
  unfold FilterEventStopHook
  split
  · exact Or.inl rfl
  · split
    · exact Or.inl rfl
    · split
      · exact Or.inl rfl
      · split
        · exact Or.inr rfl
        · exact Or.inl rfl

/-- The thread loop returns frame 0 of the first qualifying thread. -/
theorem findStopFrame_first (threads : List SBThread) (i : Nat) (hi : i < threads.length)
    (hreal : realStopReason (threads.get ⟨i, hi⟩) = true)
    (hbefore : ∀ (j : Nat) (hj : j < threads.length), j < i →
        realStopReason (threads.get ⟨j, hj⟩) = false) :
    findStopFrame threads = some (threads.get ⟨i, hi⟩).frame0 := by
  induction threads generalizing i with
  | nil => exact absurd hi (Nat.not_lt_zero i)
  | cons t rest ih =>
    cases i with
    | zero =>
      have ht : realStopReason t = true := hreal
      simp [findStopFrame, ht]
    | succ k =>
      have ht : realStopReason t = false := by
        have := hbefore 0 (Nat.succ_pos _) (Nat.succ_pos k)
        simpa using this
      have hk : k < rest.length := Nat.lt_of_succ_lt_succ (by simpa using hi)
      have hr : realStopReason (rest.get ⟨k, hk⟩) = true := hreal
      have hb : ∀ (j : Nat) (hj : j < rest.length), j < k →
          realStopReason (rest.get ⟨j, hj⟩) = false := by
        intro j hj hjk
        exact hbefore (j + 1) (Nat.succ_lt_succ hj) (Nat.succ_lt_succ hjk)
      simp [findStopFrame, ht]
      exact ih k hk hr hb

/-- When no thread qualifies the loop leaves `frame = None`. -/
theorem findStopFrame_none (threads : List SBThread)
    (h : ∀ t ∈ threads, realStopReason t = false) :
    findStopFrame threads = none := by
  induction threads with
  | nil => rfl
  | cons t rest ih =>
    have ht : realStopReason t = false := h t (List.mem_cons_self t rest)
    simp [findStopFrame, ht]
    exact ih (fun u hu => h u (List.mem_cons_of_mem t hu))

theorem extract_withLine_funcName (f : SBFrame) (n : Nat) :
    (extractObservation (f.withLine n)).funcName = (extractObservation f).funcName := rfl

theorem extract_withLine_modFileName (f : SBFrame) (n : Nat) :
    (extractObservation (f.withLine n)).modFileName = (extractObservation f).modFileName := rfl

theorem extract_withLine_srcFileName (f : SBFrame) (n : Nat) :
    (extractObservation (f.withLine n)).srcFileName = (extractObservation f).srcFileName := by
  obtain ⟨m, fu, le⟩ := f
  cases le <;> rfl

theorem findStopFrame_withLine (threads : List SBThread) (n : Nat) :
    findStopFrame (threads.map (fun t => SBThread.withLine t n)) =
      Option.map (fun f => SBFrame.withLine f n) (findStopFrame threads) := by
  induction threads with
  | nil => rfl
  | cons t rest ih =>
    cases hr : realStopReason t with
    | true =>
      have hr' : realStopReason { stopReason := t.stopReason, frame0 := t.frame0.withLine n } = true := hr
      simp [findStopFrame, hr, hr', SBThread.withLine]
    | false =>
      have hr' : realStopReason (SBThread.withLine t n) = false := hr
      simp [findStopFrame, hr, hr', ih]

/-- C1: for every criteria whose configured patterns compile and every
observation, the evaluator completes and returns `true` if and only if at
least one of the three (configured pattern, present observed field) pairs —
(function, funcName), (module, modFileName), (source, srcFileName) — has a
successful search of the pattern against the observed value; one match
suffices regardless of the other two fields. -/
theorem C1_or_semantics (valid : String → Bool) (search : String → String → Bool)
    (args : Args) (fn mf sf : Option String) (h : argsValid valid args = true) :
    evalAllow valid search args fn mf sf =
      some (pairMatches search args.function fn || pairMatches search args.modFile mf ||
        pairMatches search args.srcFile sf) := by
  simp [evalAllow, parseFilters_ok valid search args fn mf sf h]

theorem C1_or_semantics_witness :
    argsValid sampleValid ⟨none, none, some "main"⟩ = true ∧
    evalAllow sampleValid sampleSearch ⟨none, none, some "main"⟩ (some "main") none none =
      some true := by
  refine ⟨by decide, ?_⟩
  rw [C1_or_semantics sampleValid sampleSearch ⟨none, none, some "main"⟩ (some "main") none none
    (by decide)]
  rfl

/-- C2: whenever a frame was located and the evaluator completes, the handler
issues `Continue` exactly when the evaluator returned `false`; when it
returned `true` the handler performs no host action at all. -/
theorem C2_resume_iff_suppress (valid : String → Bool) (search : String → String → Bool)
    (command : String) (threads : List SBThread) (async0 : Bool) (args : Args) (frame : SBFrame)
    (allowEvent : Bool) (output : List String)
    (hp : parse_args (shlexSplit command) = .ok args)
    (hf : findStopFrame threads = some frame)
    (he : parseFilters valid search args (extractObservation frame).funcName
        (extractObservation frame).modFileName (extractObservation frame).srcFileName =
        .ok (allowEvent, output)) :
    (HostAction.continueProcess ∈ (FilterEventStopHook valid search command threads async0).actions ↔
      allowEvent = false) ∧
    (allowEvent = true → (FilterEventStopHook valid search command threads async0).actions = []) := by
  unfold FilterEventStopHook
  simp only [hp, hf, he]
  cases allowEvent <;> simp

theorem C2_resume_iff_suppress_witness :
    HostAction.continueProcess ∈
      (FilterEventStopHook sampleValid sampleSearch ""
        [⟨.eStopReasonBreakpoint, ⟨none, none, none⟩⟩] false).actions :=
  (C2_resume_iff_suppress sampleValid sampleSearch ""
      [⟨.eStopReasonBreakpoint, ⟨none, none, none⟩⟩] false ⟨none, none, none⟩
      ⟨none, none, none⟩ false [] rfl rfl rfl).1.mpr rfl

/-- C3: on every exit path of the handler — parse error, no qualifying
thread, regex error, allow, or suppress — replaying the performed host actions
from the initial async mode ends in the initial async mode, and every
`Continue` is performed while the async mode is forced `true`. -/
theorem C3_async_mode_restored (valid : String → Bool) (search : String → String → Bool)
    (command : String) (threads : List SBThread) (async0 : Bool) :
    runActions async0 (FilterEventStopHook valid search command threads async0).actions = async0 ∧
    continuesUnderAsync async0 (FilterEventStopHook valid search command threads async0).actions =
      true := by
  rcases hookActions_cases valid search command threads async0 with h | h <;>
    rw [h] <;> exact ⟨rfl, rfl⟩

/-- C4: a configured pattern whose observed field is absent contributes
nothing: the evaluator behaves exactly as if that pattern were not configured,
for every search function — in particular even for one that matches the empty
string, so absence is never coerced into an empty-string match. -/
theorem C4_absent_field_inert (valid : String → Bool) (search : String → String → Bool)
    (args : Args) (fn mf sf : Option String) :
    parseFilters valid search args fn mf sf =
      parseFilters valid search (maskAbsent args fn mf sf) fn mf sf := by
  obtain ⟨s, m, f⟩ := args
  cases fn <;> cases mf <;> cases sf <;>
    simp [parseFilters, maskAbsent, checkFilter_patNone, checkFilter_obsNone, except_bind_ok]

/-- C5: with no pattern configured the evaluator returns `false` on every
observation, and the handler (registered with an empty flag string) suppresses
every stop on which a frame was located. -/
theorem C5_default_suppress (valid : String → Bool) (search : String → String → Bool)
    (fn mf sf : Option String) (threads : List SBThread) (async0 : Bool) (frame : SBFrame)
    (hf : findStopFrame threads = some frame) :
    parseFilters valid search ⟨none, none, none⟩ fn mf sf = .ok (false, []) ∧
    (FilterEventStopHook valid search "" threads async0).actions =
      [.setAsync true, .continueProcess, .setAsync async0] := by
  refine ⟨parseFilters_noneArgs valid search fn mf sf, ?_⟩
  unfold FilterEventStopHook
  have hp : parse_args (shlexSplit "") = .ok (⟨none, none, none⟩ : Args) := rfl
  simp only [hp, hf, parseFilters_noneArgs]
  rfl

theorem C5_default_suppress_witness :
    parseFilters sampleValid sampleSearch ⟨none, none, none⟩ none none none = .ok (false, []) ∧
    (FilterEventStopHook sampleValid sampleSearch ""
        [⟨.eStopReasonSignal, ⟨none, none, none⟩⟩] false).actions =
      [.setAsync true, .continueProcess, .setAsync false] :=
  C5_default_suppress sampleValid sampleSearch none none none
    [⟨.eStopReasonSignal, ⟨none, none, none⟩⟩] false ⟨none, none, none⟩ rfl

/-- C6: the code contradicts the claim.  With the invalid pattern `"("`
configured as the function criterion and the function name absent from the
observation, evaluation completes with `.ok (false, [])` — no error of any
kind is raised, the malformed pattern is silently skipped because its field is
absent — and the full handler run on such a stop reports no error and resumes
the target. -/
theorem C6_invalid_pattern_swallowed :
    parseFilters sampleValid sampleSearch ⟨none, none, some "("⟩ none none none =
      .ok (false, []) ∧
    FilterEventStopHook sampleValid sampleSearch "--function \"(\""
        [⟨.eStopReasonBreakpoint, ⟨none, none, none⟩⟩] true =
      { prints := [], actions := [.setAsync true, .continueProcess, .setAsync true],
        err := none } :=
  ⟨rfl, rfl⟩

/-- C7: the code contradicts the claim.  With two patterns supplied,
`AddStopHookFilter` concatenates the flags with no separating space, so
shell-word-splitting produces the garbled token `a--module-file` and flag
parsing rejects the leftover token `b` instead of returning the two supplied
patterns. -/
theorem C7_roundtrip_breaks_on_two_patterns :
    AddStopHookFilterArgs (some "a") (some "b") none =
      "--source-file \"a\"--module-file \"b\"" ∧
    shlexSplit (AddStopHookFilterArgs (some "a") (some "b") none) =
      ["--source-file", "a--module-file", "b"] ∧
    parse_args (shlexSplit (AddStopHookFilterArgs (some "a") (some "b") none)) =
      .error (.unrecognizedArgument "b") :=
  ⟨rfl, rfl, rfl⟩

/-- C8: the handler's thread scan is first-match-wins — if thread `i` has a
real stop reason and every earlier thread does not, the frame is thread `i`'s
frame 0 — and when no thread has a real stop reason the handler returns with
no print, no host action and no error. -/
theorem C8_first_real_stop_thread (valid : String → Bool) (search : String → String → Bool)
    (command : String) (threads : List SBThread) (async0 : Bool) (args : Args)
    (hp : parse_args (shlexSplit command) = .ok args) :
    (∀ (i : Nat) (hi : i < threads.length),
        realStopReason (threads.get ⟨i, hi⟩) = true →
        (∀ (j : Nat) (hj : j < threads.length), j < i →
          realStopReason (threads.get ⟨j, hj⟩) = false) →
        findStopFrame threads = some (threads.get ⟨i, hi⟩).frame0) ∧
    ((∀ t ∈ threads, realStopReason t = false) →
        FilterEventStopHook valid search command threads async0 =
          { prints := [], actions := [], err := none }) := by
  constructor
  · intro i hi h1 h2
    exact findStopFrame_first threads i hi h1 h2
  · intro hall
    unfold FilterEventStopHook
    simp only [hp, findStopFrame_none threads hall]

theorem C8_first_real_stop_thread_witness :
    FilterEventStopHook sampleValid sampleSearch ""
        [⟨.eStopReasonNone, ⟨none, none, none⟩⟩, ⟨.eStopReasonInvalid, ⟨none, none, none⟩⟩]
        true =
      { prints := [], actions := [], err := none } :=
  (C8_first_real_stop_thread sampleValid sampleSearch ""
      [⟨.eStopReasonNone, ⟨none, none, none⟩⟩, ⟨.eStopReasonInvalid, ⟨none, none, none⟩⟩]
      true ⟨none, none, none⟩ rfl).2 (by decide)

/-- C9: when every configured pattern compiles, the evaluator examines the
pairs in the fixed order function, module, source, with no early exit: the
printed diagnostics are exactly one notice per matching pair in that order,
and the returned decision is the OR of the pair matches, unaffected by the
diagnostics. -/
theorem C9_ordered_diagnostics (valid : String → Bool) (search : String → String → Bool)
    (args : Args) (fn mf sf : Option String) (h : argsValid valid args = true) :
    parseFilters valid search args fn mf sf =
      .ok (pairMatches search args.function fn || pairMatches search args.modFile mf ||
             pairMatches search args.srcFile sf,
           ((if pairMatches search args.function fn then [funcMatchMsg] else []) ++
             (if pairMatches search args.modFile mf then [modMatchMsg] else [])) ++
           (if pairMatches search args.srcFile sf then [srcMatchMsg] else [])) :=
  parseFilters_ok valid search args fn mf sf h

theorem C9_ordered_diagnostics_witness :
    argsValid sampleValid ⟨some "s", some "m", some "f"⟩ = true ∧
    parseFilters sampleValid sampleSearch ⟨some "s", some "m", some "f"⟩
        (some "f") (some "m") (some "s") =
      .ok (true, [funcMatchMsg, modMatchMsg, srcMatchMsg]) := by
  refine ⟨by decide, ?_⟩
  rw [C9_ordered_diagnostics sampleValid sampleSearch ⟨some "s", some "m", some "f"⟩
    (some "f") (some "m") (some "s") (by decide)]
  rfl

/-- C10: the observed line number never influences the decision: replacing the
line number in a frame leaves the evaluator's result unchanged, and replacing
it in every thread leaves the handler's whole observable outcome — prints,
host actions, error — unchanged. -/
theorem C10_line_noninterference (valid : String → Bool) (search : String → String → Bool)
    (args : Args) (command : String) (threads : List SBThread) (async0 : Bool) (n : Nat)
    (frame : SBFrame) :
    (parseFilters valid search args (extractObservation (frame.withLine n)).funcName
        (extractObservation (frame.withLine n)).modFileName
        (extractObservation (frame.withLine n)).srcFileName =
      parseFilters valid search args (extractObservation frame).funcName
        (extractObservation frame).modFileName (extractObservation frame).srcFileName) ∧
    FilterEventStopHook valid search command (threads.map (fun t => SBThread.withLine t n))
        async0 =
      FilterEventStopHook valid search command threads async0 := by
  constructor
  · rw [extract_withLine_funcName, extract_withLine_modFileName, extract_withLine_srcFileName]
  · unfold FilterEventStopHook
    cases hp : parse_args (shlexSplit command) with
    | error e => rfl
    | ok args2 =>
      rw [findStopFrame_withLine]
      cases hf : findStopFrame threads with
      | none => rfl
      | some f =>
        simp only [Option.map_some']
        rw [extract_withLine_funcName, extract_withLine_modFileName,
          extract_withLine_srcFileName]

end FilterEvents
